import Mathlib

/-!
Verification of the compatibility / safety layer of the kaldi tensor runtime
(`tensor/tensor-utils.h`).  The header under study is a thin layer of
forwarding wrappers; where the function it forwards to lives in a module that
is not part of the sources (pattern-utils.h, tensor-impl.h, the storage
subsystem), the callee is modelled from the specification, and marked so in
its doc comment.  Everything defined at the `Tensor` level mirrors the header
itself.
-/

/-- Use types recorded by the hazard tracker, from the enumeration listed in
the header (kRead, kWrite, kReadWrite, kReadInvalidate, kInvalidate). -/
inductive TensorUseEnum where
  | kRead
  | kWrite
  | kReadWrite
  | kReadInvalidate
  | kInvalidate
deriving DecidableEq, Repr

/-- Strided-view descriptor of a tensor: per-axis extents in the public
left-to-right order, per-axis strides, and a base offset.  The header only
inspects `dims`; strides and offset feed the overlap footprint. -/
structure Pattern where
  dims : List Nat
  strides : List Int
  offset : Int
deriving DecidableEq, Repr

/-- A storage region, identified here by a region id standing for the address
identity that the header compares with `storage.get() == storage.get()`. -/
structure Storage where
  rid : Nat
deriving DecidableEq, Repr

/-- The underlying implementation object of a tensor: pattern, storage,
element type and device. -/
structure TensorImpl where
  pattern : Pattern
  storage : Storage
  dtype : Nat
  device : Nat
deriving DecidableEq, Repr

/-- A tensor handle referencing one implementation object, as in the header
where every wrapper goes through `impl_`. -/
structure Tensor where
  impl_ : TensorImpl
deriving DecidableEq, Repr

/-- Left-pad a dims vector with extent-1 axes up to rank `n` (public order;
purely a new list, the argument is untouched). -/
def padDims (n : Nat) (l : List Nat) : List Nat :=
  List.replicate (n - l.length) 1 ++ l

/-- Modelled from the spec: pattern-level `Broadcastable` from
pattern-utils.h is not in the sources.  Conceptually left-pad the shorter
shape with extent-1 axes until ranks match; each aligned axis pair `(da, db)`
is compatible iff `da == db` or `da == 1` or `db == 1`; if `b_non_reducing`
is set, a pair with `da != 1` and `db == 1` is a violation. -/
def broadcastableDims (a b : List Nat) (b_non_reducing : Bool) : Bool :=
  let n := max a.length b.length
  ((padDims n a).zip (padDims n b)).all fun p =>
    (p.1 == p.2 || p.1 == 1 || p.2 == 1) &&
      !(b_non_reducing && p.1 != 1 && p.2 == 1)

/-- Modelled from the spec: pattern-level `SameDim` from pattern-utils.h is
not in the sources.  Strict equality of the padded extents. -/
def sameDims (a b : List Nat) : Bool :=
  let n := max a.length b.length
  padDims n a == padDims n b

/-- Modelled from the spec: `Compatible(TensorImpl, TensorImpl)` from
tensor-impl.h is not in the sources; true iff element type and device match
exactly. -/
def compatibleImpl (a b : TensorImpl) : Bool :=
  a.dtype == b.dtype && a.device == b.device

/-- All index tuples addressed by a dims vector. -/
def indexTuples : List Nat → List (List Nat)
  | [] => [[]]
  | d :: ds => (List.range d).flatMap fun i => (indexTuples ds).map fun t => i :: t

/-- The set of element offsets a pattern addresses inside its region:
base offset plus the stride-weighted index for every index tuple. -/
def Pattern.footprint (p : Pattern) : List Int :=
  (indexTuples p.dims).map fun t =>
    p.offset + (t.zip p.strides).foldl (fun acc q => acc + (q.1 : Int) * q.2) 0

/-- Modelled from the spec: `PatternsOverlap` from pattern-utils.h is not in
the sources; true iff the footprints of the two patterns over the region
intersect in at least one location. -/
def PatternsOverlap (p q : Pattern) : Bool :=
  p.footprint.any fun x => q.footprint.contains x

/-- `Compatible(a, b)` from the header: forwards to the impl-level check. -/
def Compatible (a b : Tensor) : Bool :=
  compatibleImpl a.impl_ b.impl_

/-- `Broadcastable(a, b, b_non_reducing = false)` from the header: forwards
the patterns of the two tensors to the pattern-level predicate. -/
def Broadcastable (a b : Tensor) (b_non_reducing : Bool := false) : Bool :=
  broadcastableDims a.impl_.pattern.dims b.impl_.pattern.dims b_non_reducing

/-- `SameDim(a, b)` from the header: forwards the two patterns. -/
def SameDim (a b : Tensor) : Bool :=
  sameDims a.impl_.pattern.dims b.impl_.pattern.dims

/-- Three-operand `SameDim(a, b, c)` exactly as the header writes it: the
body is `SameDim(a.impl_.pattern, b.impl_.pattern)` and never looks at `c`. -/
def SameDim3 (a b c : Tensor) : Bool :=
  sameDims a.impl_.pattern.dims b.impl_.pattern.dims

/-- `Overlap(a, b)` from the header: same storage region (pointer identity)
and overlapping pattern footprints. -/
def Overlap (a b : Tensor) : Bool :=
  a.impl_.storage.rid == b.impl_.storage.rid &&
    PatternsOverlap a.impl_.pattern b.impl_.pattern

/-- Number of axes of a tensor (rank of its dims vector, public order). -/
def NumAxes (a : Tensor) : Nat :=
  a.impl_.pattern.dims.length

/-- Extent of one axis of a tensor in the public order. -/
def Dim (a : Tensor) (axis : Nat) : Nat :=
  a.impl_.pattern.dims.getD axis 1

/-- Modelled from the spec: `NumElements(TensorImpl)` from tensor-impl.h is
not in the sources; the header documents it as the product of the dims,
computed here as the usual running product over the axes. -/
def numElementsImpl (impl : TensorImpl) : Nat :=
  impl.pattern.dims.foldl (fun n d => n * d) 1

/-- `NumElements(a)` from the header: forwards to the impl-level count. -/
def NumElements (a : Tensor) : Nat :=
  numElementsImpl a.impl_

/-- One recorded use of a storage region: logical tick and use mode. -/
structure UseRecord where
  tick : Nat
  mode : TensorUseEnum
deriving DecidableEq, Repr

/-- Modelled from the spec: the per-region memory checker of the storage
subsystem is not in the sources; it keeps the append-only use history. -/
structure MemoryChecker where
  uses : List UseRecord
deriving DecidableEq, Repr

/-- Whether a use mode can change (or invalidate) the contents of a region:
every mode except kRead. -/
def isChangingUse : TensorUseEnum → Bool
  | TensorUseEnum.kRead => false
  | TensorUseEnum.kWrite => true
  | TensorUseEnum.kReadWrite => true
  | TensorUseEnum.kReadInvalidate => true
  | TensorUseEnum.kInvalidate => true

/-- Modelled from the spec: the region-level `CheckUnchangedSince` of the
hazard tracker is not in the sources (the header wrapper is a TODO stub);
true iff no Write, ReadWrite or Invalidate-class use was recorded with a
tick strictly greater than the given tick. -/
def CheckUnchangedSince (r : MemoryChecker) (tick : Nat) : Bool :=
  r.uses.all fun u => !(isChangingUse u.mode && decide (tick < u.tick))

/-- Debug-mode world state: each region id maps to its memory checker, plus
the central monotonic tick counter. -/
structure DebugState where
  checkers : Nat → MemoryChecker
  tick : Nat

/-- Modelled from the spec: the memory-checker `RecordUse` reached through
`GetMemoryChecker()` is not in the sources; it appends a use tagged with the
current tick to the history of the storage region and advances the tick. -/
def recordUseImpl (tensor : Tensor) (use_type : TensorUseEnum)
    (s : DebugState) : DebugState :=
  { checkers := Function.update s.checkers tensor.impl_.storage.rid
      ⟨(s.checkers tensor.impl_.storage.rid).uses ++ [⟨s.tick, use_type⟩]⟩,
    tick := s.tick + 1 }

/-- `RecordUse(tensor, use_type)` from the header: records the use through
the memory checker only when the debug flag is on.  The process-wide
`DebugMode()` flag is passed explicitly. -/
def RecordUse (debugMode : Bool) (tensor : Tensor) (use_type : TensorUseEnum)
    (s : DebugState) : DebugState :=
  if debugMode then recordUseImpl tensor use_type s else s

/-- Modelled from the spec: `DebugNormalOpInternal` for two tensors is only
declared in the header; in debug mode it records each operand use. -/
def DebugNormalOpInternal2 (a : Tensor) (a_use : TensorUseEnum)
    (b : Tensor) (b_use : TensorUseEnum) (s : DebugState) : DebugState :=
  recordUseImpl b b_use (recordUseImpl a a_use s)

/-- Modelled from the spec: `DebugNormalOpInternal` for three tensors is only
declared in the header; in debug mode it records each operand use. -/
def DebugNormalOpInternal3 (a : Tensor) (a_use : TensorUseEnum)
    (b : Tensor) (b_use : TensorUseEnum)
    (c : Tensor) (c_use : TensorUseEnum) (s : DebugState) : DebugState :=
  recordUseImpl c c_use (recordUseImpl b b_use (recordUseImpl a a_use s))

/-- Two-tensor `DebugNormalOp` from the header: calls the internal routine
only when the debug flag is on. -/
def DebugNormalOp2 (debugMode : Bool) (a : Tensor) (a_use : TensorUseEnum)
    (b : Tensor) (b_use : TensorUseEnum) (s : DebugState) : DebugState :=
  if debugMode then DebugNormalOpInternal2 a a_use b b_use s else s

/-- Three-tensor `DebugNormalOp` from the header: calls the internal routine
only when the debug flag is on. -/
def DebugNormalOp3 (debugMode : Bool) (a : Tensor) (a_use : TensorUseEnum)
    (b : Tensor) (b_use : TensorUseEnum)
    (c : Tensor) (c_use : TensorUseEnum) (s : DebugState) : DebugState :=
  if debugMode then DebugNormalOpInternal3 a a_use b b_use c c_use s else s

/-- A storage region: contents are `none` until the region is materialized,
`some bytes` afterwards; `zero_on_alloc` is the one-shot deferred-zeroing
flag; `num_bytes` is the allocation size. -/
structure StorageRegion where
  contents : Option (List Nat)
  zero_on_alloc : Bool
  num_bytes : Nat
deriving DecidableEq, Repr

/-- Modelled from the spec: the storage-level `ZeroOnAllocation` is not in
the sources; it sets the one-shot flag, and only has an effect when the
region is not yet materialized (a deliberate no-op afterwards). -/
def StorageRegion.zeroOnAllocation (r : StorageRegion) : StorageRegion :=
  if r.contents.isSome then r else { r with zero_on_alloc := true }

/-- Modelled from the spec: first materialization of a region by the
allocator; fills the region with zero bytes when the one-shot flag was set,
with whatever raw memory the allocator hands out otherwise, and does nothing
when the region is already live. -/
def StorageRegion.materialize (r : StorageRegion) (raw : List Nat) : StorageRegion :=
  match r.contents with
  | some _ => r
  | none =>
      { contents := some (if r.zero_on_alloc then List.replicate r.num_bytes 0 else raw),
        zero_on_alloc := false,
        num_bytes := r.num_bytes }

/-- `ZeroOnAllocation(a)` from the header: forwards to the storage region of
the tensor, here by updating that region inside the region store. -/
def ZeroOnAllocation (a : Tensor) (store : Nat → StorageRegion) : Nat → StorageRegion :=
  Function.update store a.impl_.storage.rid
    (store a.impl_.storage.rid).zeroOnAllocation

/-- A concrete tensor with a given region id and dims, unit strides and zero
offset; used by the concrete scenarios below. -/
def mkT (rid : Nat) (ds : List Nat) : Tensor :=
  ⟨⟨⟨ds, List.replicate ds.length 1, 0⟩, ⟨rid⟩, 0, 0⟩⟩

/-- The aligned (post-padding) axis pairs of two tensors, in public order. -/
def zipPadded (a b : Tensor) : List (Nat × Nat) :=
  (padDims (max (NumAxes a) (NumAxes b)) a.impl_.pattern.dims).zip
    (padDims (max (NumAxes a) (NumAxes b)) b.impl_.pattern.dims)

/-! Helper lemmas shared by the claim theorems. -/

theorem allCongrOn {α : Type} (l : List α) (p q : α → Bool)
    (h : ∀ x ∈ l, p x = q x) : l.all p = l.all q := by
  induction l with
  | nil => rfl
  | cons x t ih =>
      simp only [List.all_cons]
      rw [h x (List.mem_cons_self x t), ih fun y hy => h y (List.mem_cons_of_mem x hy)]

theorem memZipSelf : ∀ {l : List Nat} {p : Nat × Nat}, p ∈ l.zip l → p.1 = p.2
  | [], p, hp => by simp at hp
  | x :: t, p, hp => by
      rw [List.zip_cons_cons] at hp
      rcases List.mem_cons.mp hp with h | h
      · subst h; rfl
      · exact memZipSelf h

theorem mapGetDRange : ∀ l : List Nat,
    (List.range l.length).map (fun i => l.getD i 1) = l
  | [] => rfl
  | x :: t => by
      rw [List.length_cons, List.range_succ_eq_map, List.map_cons, List.map_map]
      simp only [Function.comp_def, List.getD_cons_succ, List.getD_cons_zero]
      rw [mapGetDRange t]

theorem useUnchanged_iff (u : UseRecord) (tick : Nat) :
    (!(isChangingUse u.mode && decide (tick < u.tick))) = true ↔
      ((u.mode = TensorUseEnum.kWrite ∨ u.mode = TensorUseEnum.kReadWrite ∨
        u.mode = TensorUseEnum.kReadInvalidate ∨ u.mode = TensorUseEnum.kInvalidate) →
        u.tick ≤ tick) := by
  obtain ⟨t, m⟩ := u
  cases m <;> simp [isChangingUse]

/-- Claim C1: Broadcastable(a, b) returns true iff, after virtually
left-padding the shorter dims vector with extent-1 axes until the ranks
match, every aligned axis pair (da, db) satisfies da = db or da = 1 or
db = 1; in particular dims [2,8,3] and [8,1] are broadcastable while [3,4]
and [4,3] are not. -/
theorem Broadcastable_iff_padded_axes_compatible :
    (∀ a b : Tensor,
      Broadcastable a b = true ↔
        ∀ p ∈ zipPadded a b, p.1 = p.2 ∨ p.1 = 1 ∨ p.2 = 1) ∧
    Broadcastable (mkT 0 [2, 8, 3]) (mkT 1 [8, 1]) = true ∧
    Broadcastable (mkT 0 [3, 4]) (mkT 1 [4, 3]) = false := by
  refine ⟨fun a b => ?_, by decide, by decide⟩
  rw [show Broadcastable a b = (zipPadded a b).all fun p =>
        (p.1 == p.2 || p.1 == 1 || p.2 == 1) &&
          !(false && p.1 != 1 && p.2 == 1) from rfl,
      List.all_eq_true]
  refine forall_congr' fun p => imp_congr_right fun _ => ?_
  simp [or_assoc]

/-- Claim C2: CheckUnchangedSince(region, tick) is true iff no Write,
ReadWrite or Invalidate-class use was recorded on the region with a tick
strictly greater than the given tick; after a Write at tick 5 the check at
tick 3 returns false and at tick 6 returns true. -/
theorem CheckUnchangedSince_iff_no_later_change :
    (∀ (r : MemoryChecker) (tick : Nat),
      CheckUnchangedSince r tick = true ↔
        ∀ u ∈ r.uses,
          (u.mode = TensorUseEnum.kWrite ∨ u.mode = TensorUseEnum.kReadWrite ∨
            u.mode = TensorUseEnum.kReadInvalidate ∨ u.mode = TensorUseEnum.kInvalidate) →
          u.tick ≤ tick) ∧
    CheckUnchangedSince ⟨[⟨5, TensorUseEnum.kWrite⟩]⟩ 3 = false ∧
    CheckUnchangedSince ⟨[⟨5, TensorUseEnum.kWrite⟩]⟩ 6 = true := by
  refine ⟨fun r tick => ?_, by decide, by decide⟩
  rw [show CheckUnchangedSince r tick =
        r.uses.all (fun u => !(isChangingUse u.mode && decide (tick < u.tick))) from rfl,
      List.all_eq_true]
  exact forall_congr' fun u => imp_congr_right fun _ => useUnchanged_iff u tick

/-- Witness for claim C1 at concrete dims, using the characterization. -/
theorem Broadcastable_iff_padded_axes_compatible_witness :
    Broadcastable (mkT 0 [2, 8, 3]) (mkT 1 [8, 1]) = true :=
  (Broadcastable_iff_padded_axes_compatible.1 (mkT 0 [2, 8, 3]) (mkT 1 [8, 1])).mpr
    (by decide)

/-- Witness for claim C2 at a concrete one-write history. -/
theorem CheckUnchangedSince_iff_no_later_change_witness :
    CheckUnchangedSince ⟨[⟨5, TensorUseEnum.kWrite⟩]⟩ 6 = true :=
  (CheckUnchangedSince_iff_no_later_change.1 ⟨[⟨5, TensorUseEnum.kWrite⟩]⟩ 6).mpr
    (by decide)

/-- Claim C3: Overlap(a, b) is true iff both tensors reference the same
storage region and their pattern footprints over it intersect; tensors on
different regions never overlap, independent of their shapes. -/
theorem Overlap_iff_same_region_and_intersecting :
    (∀ a b : Tensor,
      Overlap a b = true ↔
        a.impl_.storage.rid = b.impl_.storage.rid ∧
          ∃ x, x ∈ a.impl_.pattern.footprint ∧ x ∈ b.impl_.pattern.footprint) ∧
    (∀ a b : Tensor, a.impl_.storage.rid ≠ b.impl_.storage.rid →
      Overlap a b = false) := by
  have key : ∀ a b : Tensor,
      Overlap a b = true ↔
        a.impl_.storage.rid = b.impl_.storage.rid ∧
          ∃ x, x ∈ a.impl_.pattern.footprint ∧ x ∈ b.impl_.pattern.footprint := by
    intro a b
    rw [show Overlap a b = (a.impl_.storage.rid == b.impl_.storage.rid &&
          PatternsOverlap a.impl_.pattern b.impl_.pattern) from rfl]
    simp [PatternsOverlap, List.contains]
  refine ⟨key, fun a b hne => ?_⟩
  exact Bool.eq_false_iff.mpr fun h => hne ((key a b).mp h).1

/-- Witness for claim C3: two one-element tensors on distinct regions. -/
theorem Overlap_iff_same_region_and_intersecting_witness :
    Overlap (mkT 0 [2]) (mkT 1 [2]) = false :=
  Overlap_iff_same_region_and_intersecting.2 (mkT 0 [2]) (mkT 1 [2]) (by decide)

/-- Claim C4: with b_non_reducing set, Broadcastable returns false whenever
some aligned post-padding axis pair has da different from 1 and db equal
to 1, and on inputs without such an axis it agrees with the plain
Broadcastable. -/
theorem Broadcastable_nonReducing_rejects :
    (∀ a b : Tensor, (∃ p ∈ zipPadded a b, p.1 ≠ 1 ∧ p.2 = 1) →
      Broadcastable a b true = false) ∧
    (∀ a b : Tensor, (∀ p ∈ zipPadded a b, ¬(p.1 ≠ 1 ∧ p.2 = 1)) →
      Broadcastable a b true = Broadcastable a b false) := by
  constructor
  · rintro a b ⟨p, hp, hne, h1⟩
    rw [show Broadcastable a b true = (zipPadded a b).all fun q =>
          (q.1 == q.2 || q.1 == 1 || q.2 == 1) &&
            !(true && q.1 != 1 && q.2 == 1) from rfl]
    refine List.all_eq_false.mpr ⟨p, hp, ?_⟩
    intro hcontra
    simp at hcontra
    tauto
  · intro a b h
    rw [show Broadcastable a b true = (zipPadded a b).all fun q =>
          (q.1 == q.2 || q.1 == 1 || q.2 == 1) &&
            !(true && q.1 != 1 && q.2 == 1) from rfl,
        show Broadcastable a b false = (zipPadded a b).all fun q =>
          (q.1 == q.2 || q.1 == 1 || q.2 == 1) &&
            !(false && q.1 != 1 && q.2 == 1) from rfl]
    apply allCongrOn
    intro p hp
    rcases not_and_or.mp (h p hp) with h1 | h2
    · rw [not_not] at h1
      simp [h1]
    · simp [beq_eq_false_iff_ne.mpr h2]

/-- Witness for claim C4: dims [2] against [1] are rejected in the
non-reducing variant, and equal dims agree with the plain predicate. -/
theorem Broadcastable_nonReducing_rejects_witness :
    Broadcastable (mkT 0 [2]) (mkT 1 [1]) true = false ∧
    Broadcastable (mkT 0 [2, 3]) (mkT 1 [2, 3]) true =
      Broadcastable (mkT 0 [2, 3]) (mkT 1 [2, 3]) false :=
  ⟨Broadcastable_nonReducing_rejects.1 (mkT 0 [2]) (mkT 1 [1])
      ⟨(2, 1), by decide, by decide, rfl⟩,
    Broadcastable_nonReducing_rejects.2 (mkT 0 [2, 3]) (mkT 1 [2, 3]) (by decide)⟩

/-- Claim C5: SameDim(a, b) implies Broadcastable(a, b): equality of the
padded dims vectors is strictly stronger than broadcastability. -/
theorem SameDim_implies_Broadcastable (a b : Tensor)
    (h : SameDim a b = true) : Broadcastable a b = true := by
  have hd : padDims (max a.impl_.pattern.dims.length b.impl_.pattern.dims.length)
        a.impl_.pattern.dims =
      padDims (max a.impl_.pattern.dims.length b.impl_.pattern.dims.length)
        b.impl_.pattern.dims :=
    eq_of_beq h
  rw [show Broadcastable a b =
      ((padDims (max a.impl_.pattern.dims.length b.impl_.pattern.dims.length)
          a.impl_.pattern.dims).zip
        (padDims (max a.impl_.pattern.dims.length b.impl_.pattern.dims.length)
          b.impl_.pattern.dims)).all fun p =>
        (p.1 == p.2 || p.1 == 1 || p.2 == 1) &&
          !(false && p.1 != 1 && p.2 == 1) from rfl]
  rw [← hd, List.all_eq_true]
  intro p hp
  have hpq := memZipSelf hp
  simp [hpq]

/-- Witness for claim C5: dims [2,3] against [1,2,3]. -/
theorem SameDim_implies_Broadcastable_witness :
    SameDim (mkT 0 [2, 3]) (mkT 0 [1, 2, 3]) = true ∧
    Broadcastable (mkT 0 [2, 3]) (mkT 0 [1, 2, 3]) = true :=
  ⟨by decide, SameDim_implies_Broadcastable (mkT 0 [2, 3]) (mkT 0 [1, 2, 3]) (by decide)⟩

/-- Claim C6 (code bug): the three-operand SameDim of the header never looks
at its third operand; evaluated at dims a = [2], b = [2], c = [3] it returns
true, although the padded dims of c differ from those of a and b. -/
theorem SameDim3_ignores_third_operand :
    SameDim3 (mkT 0 [2]) (mkT 0 [2]) (mkT 0 [3]) = true ∧
    sameDims [3] [2] = false := by decide

/-- Claim C8: with the debug flag off, the two- and three-tensor
DebugNormalOp and RecordUse leave the whole debug state untouched for every
combination of tensors and use types. -/
theorem debug_off_is_noop :
    (∀ (a : Tensor) (a_use : TensorUseEnum) (b : Tensor) (b_use : TensorUseEnum)
        (s : DebugState), DebugNormalOp2 false a a_use b b_use s = s) ∧
    (∀ (a : Tensor) (a_use : TensorUseEnum) (b : Tensor) (b_use : TensorUseEnum)
        (c : Tensor) (c_use : TensorUseEnum) (s : DebugState),
      DebugNormalOp3 false a a_use b b_use c c_use s = s) ∧
    (∀ (t : Tensor) (u : TensorUseEnum) (s : DebugState),
      RecordUse false t u s = s) :=
  ⟨fun _ _ _ _ _ => rfl, fun _ _ _ _ _ _ _ => rfl, fun _ _ _ => rfl⟩

/-- Claim C9: ZeroOnAllocation is one-shot and timing-sensitive: called
before the region of the tensor is materialized, the first materialization
yields an all-zero region; called after materialization it leaves the region
store entirely unchanged. -/
theorem ZeroOnAllocation_one_shot :
    (∀ (a : Tensor) (store : Nat → StorageRegion) (raw : List Nat),
      (store a.impl_.storage.rid).contents = none →
        ((ZeroOnAllocation a store a.impl_.storage.rid).materialize raw).contents =
          some (List.replicate (store a.impl_.storage.rid).num_bytes 0)) ∧
    (∀ (a : Tensor) (store : Nat → StorageRegion),
      (store a.impl_.storage.rid).contents ≠ none →
        ZeroOnAllocation a store = store) := by
  constructor
  · intro a store raw h
    have e : ZeroOnAllocation a store a.impl_.storage.rid =
        (store a.impl_.storage.rid).zeroOnAllocation :=
      Function.update_same _ _ _
    rw [e]
    simp [StorageRegion.zeroOnAllocation, StorageRegion.materialize, h]
  · intro a store h
    have e : (store a.impl_.storage.rid).zeroOnAllocation =
        store a.impl_.storage.rid := by
      unfold StorageRegion.zeroOnAllocation
      rw [if_pos (Option.ne_none_iff_isSome.mp h)]
    unfold ZeroOnAllocation
    rw [e, Function.update_eq_self]

/-- Witness for claim C9: region 0 with two bytes, first unmaterialized and
zeroed at materialization, then already materialized and left unchanged. -/
theorem ZeroOnAllocation_one_shot_witness :
    ((ZeroOnAllocation (mkT 0 [2]) (fun _ => (⟨none, false, 2⟩ : StorageRegion)) 0).materialize
        [7, 7]).contents = some (List.replicate 2 0) ∧
    ZeroOnAllocation (mkT 0 [2]) (fun _ => (⟨some [4, 5], false, 2⟩ : StorageRegion)) =
      (fun _ => (⟨some [4, 5], false, 2⟩ : StorageRegion)) :=
  ⟨ZeroOnAllocation_one_shot.1 (mkT 0 [2])
      (fun _ => (⟨none, false, 2⟩ : StorageRegion)) [7, 7] rfl,
    ZeroOnAllocation_one_shot.2 (mkT 0 [2])
      (fun _ => (⟨some [4, 5], false, 2⟩ : StorageRegion)) (by decide)⟩

/-- Claim C10: NumElements equals the product over all axes of the axis
extents; a rank-0 tensor therefore has NumElements 1, and any zero-extent
axis forces NumElements 0. -/
theorem NumElements_eq_prod_of_dims :
    (∀ a : Tensor,
      NumElements a = ((List.range (NumAxes a)).map (Dim a)).prod) ∧
    (∀ a : Tensor, NumAxes a = 0 → NumElements a = 1) ∧
    (∀ (a : Tensor) (i : Nat), i < NumAxes a → Dim a i = 0 →
      NumElements a = 0) := by
  have base : ∀ a : Tensor, NumElements a = a.impl_.pattern.dims.prod := by
    intro a
    rw [show NumElements a = a.impl_.pattern.dims.foldl (fun n d => n * d) 1 from rfl,
      List.prod_eq_foldl]
  refine ⟨fun a => ?_, fun a h => ?_, fun a i hi h0 => ?_⟩
  · rw [base, show (List.range (NumAxes a)).map (Dim a) =
        (List.range a.impl_.pattern.dims.length).map
          (fun j => a.impl_.pattern.dims.getD j 1) from rfl,
      mapGetDRange]
  · have hnil : a.impl_.pattern.dims = [] := List.length_eq_zero.mp h
    rw [base, hnil, List.prod_nil]
  · have h0g : a.impl_.pattern.dims.getD i 1 = 0 := h0
    rw [List.getD_eq_getElem _ _ hi] at h0g
    exact (base a).trans (List.prod_eq_zero (h0g ▸ List.getElem_mem hi))

/-- Witness for claim C10: dims [3, 0, 4] give the product form and the
zero-extent axis forces zero elements. -/
theorem NumElements_eq_prod_of_dims_witness :
    NumElements (mkT 0 [3, 0, 4]) =
      ((List.range 3).map (Dim (mkT 0 [3, 0, 4]))).prod ∧
    NumElements (mkT 0 [3, 0, 4]) = 0 :=
  ⟨NumElements_eq_prod_of_dims.1 (mkT 0 [3, 0, 4]),
    NumElements_eq_prod_of_dims.2.2 (mkT 0 [3, 0, 4]) 1 (by decide) (by decide)⟩
